import Mathlib

/-!
Verification of the tide-gauge firmware engine (src/main.cpp).

Floats are embedded as exact rationals (ℚ); the C cast `(int)` on a float
truncates toward zero and is embedded as `truncQ`; the C `%` on `int` is
truncated remainder, embedded as `Int.tmod`.  Arduino's `constrain(x, lo, hi)`
macro is `if x < lo then lo else if hi < x then hi else x`.
-/

/-- Truncation toward zero, the semantics of a C `(int)` cast on a float. -/
def truncQ (q : ℚ) : ℤ := if 0 ≤ q then ⌊q⌋ else ⌈q⌉

/-- Arduino `constrain(amt, low, high)` macro:
`(amt < low) ? low : ((amt > high) ? high : amt)`. -/
def constrain {α : Type} [LinearOrder α] (x lo hi : α) : α :=
  if x < lo then lo else if hi < x then hi else x

/-- Constant `TIDE_SCALE_FT` = 8.0f: ±8 ft from MSL is full deflection (main.cpp line 32). -/
def TIDE_SCALE_FT : ℚ := 8

/-- Constant `DAC_CENTER` = 128 (main.cpp line 31). -/
def DAC_CENTER : ℤ := 128

/-- Constant `NOAA_MSL_FT` = 8.35f, Port Townsend MSL above MLLW (main.cpp line 33): 167/20. -/
def NOAA_MSL_FT : ℚ := 167/20

/-- Function `tideToDAC` (main.cpp lines 84-89): clamp the delta to ±TIDE_SCALE_FT,
normalize by TIDE_SCALE_FT, then `DAC_CENTER + (int)(normalized * 127.0f)`,
constrained to [0, 255]. -/
def tideToDAC (deltaMSL : ℚ) : ℤ :=
  let clamped := constrain deltaMSL (-TIDE_SCALE_FT) TIDE_SCALE_FT
  let normalized := clamped / TIDE_SCALE_FT
  let dac := DAC_CENTER + truncQ (normalized * 127)
  constrain dac 0 255

/-- Struct `TideState` (main.cpp lines 50-58) with its in-class default initializers. -/
structure TideState where
  currentFt : ℚ
  deltaMSL : ℚ
  nextEventType : String
  nextEventFt : ℚ
  nextEventTime : String
  fetchedAt : String
  valid : Bool
deriving DecidableEq

/-- The boot value of the global `tideState` (default member initializers). -/
def TideState.init : TideState :=
  { currentFt := 0, deltaMSL := 0, nextEventType := "--", nextEventFt := 0,
    nextEventTime := "--", fetchedAt := "--", valid := false }

/-- One parsed hi/lo prediction entry: `pt` is the `mktime` result for the
entry's timestamp, `hour`/`minute` the parsed fields used for display,
`type` the raw type string, `v` the predicted level. -/
structure Prediction where
  pt : ℤ
  hour : ℕ
  minute : ℕ
  type : String
  v : ℚ
deriving DecidableEq

/-- Zero-padded two-digit rendering of `%02d` for the parsed time fields. -/
def pad2 (n : ℕ) : String := if n < 10 then "0" ++ toString n else toString n

/-- Rendering of `snprintf(buf, sizeof buf, "%02d:%02d UTC", ptm.tm_hour, ptm.tm_min)`
(main.cpp line 221). -/
def formatTime (h m : ℕ) : String := pad2 h ++ ":" ++ pad2 m ++ " UTC"

/-- The prediction loop of `fetchTide` (main.cpp lines 204-225): walk the list
in order, and at the FIRST entry whose timestamp is strictly later than `now`
write the three next-event fields and `break`.  `List.find?` is exactly this
first-match-then-stop scan. -/
def nextEventUpdate (st : TideState) (preds : List Prediction) (now : ℤ) : TideState :=
  match preds.find? (fun p => decide (now < p.pt)) with
  | some p =>
      { st with
        nextEventType := if p.type == "H" then "High" else "Low",
        nextEventFt := p.v,
        nextEventTime := formatTime p.hour p.minute }
  | none => st

/-- Function `fetchTide` (main.cpp lines 140-235) as a state transformer.  `level` is
the outcome of the water-level fetch (`some v` when the HTTP request returned
200, the JSON parsed and the data array was non-empty; `none` otherwise);
`preds` is the outcome of the predictions fetch; `now` is the single
`time(nullptr)` snapshot taken before the loop; `nowStr` is `nowString()`.
Group A {currentFt, deltaMSL, valid} updates only on level success; group B
updates via `nextEventUpdate`; `fetchedAt` is stamped unconditionally. -/
def fetchTideStep (st : TideState) (level : Option ℚ)
    (preds : Option (List Prediction)) (now : ℤ) (nowStr : String) : TideState :=
  let st1 :=
    match level with
    | some v => { st with currentFt := v, deltaMSL := v - NOAA_MSL_FT, valid := true }
    | none => st
  let st2 :=
    match preds with
    | some l => nextEventUpdate st1 l now
    | none => st1
  { st2 with fetchedAt := nowStr }

/-- Struct `WeatherState` (main.cpp lines 60-67). -/
structure WeatherState where
  tempF : ℚ
  windMph : ℚ
  windDirDeg : ℚ
  condition : String
  fetchedAt : String
  valid : Bool
deriving DecidableEq

/-- The boot value of the global `weatherState`. -/
def WeatherState.init : WeatherState :=
  { tempF := 0, windMph := 0, windDirDeg := 0, condition := "--",
    fetchedAt := "--", valid := false }

/-- Function `wmoDescription` (main.cpp lines 245-259): the WMO weather-code switch. -/
def wmoDescription (code : ℤ) : String :=
  match code with
  | 0 => "Clear sky"
  | 1 => "Mainly clear"
  | 2 => "Partly cloudy"
  | 3 => "Overcast"
  | 45 | 48 => "Fog"
  | 51 | 53 | 55 => "Drizzle"
  | 61 | 63 | 65 => "Rain"
  | 71 | 73 | 75 => "Snow"
  | 80 | 81 | 82 => "Showers"
  | 95 => "Thunderstorm"
  | _ => "Unknown (" ++ toString code ++ ")"

/-- The sector index computed inside `windDirection` (main.cpp line 263):
`(int)((deg + 22.5f) / 45.0f) % 8` with C truncated division and remainder. -/
def windDirIdx (deg : ℚ) : ℤ := Int.tmod (truncQ ((deg + 45/2) / 45)) 8

/-- The 8-entry compass table of `windDirection` (main.cpp line 262). -/
def compassDirs : List String := ["N", "NE", "E", "SE", "S", "SW", "W", "NW"]

/-- Function `windDirection` (main.cpp lines 261-265): look the sector index up in the
8-entry table.  A negative index is an out-of-bounds array access in the C++
source, rendered here as `none`. -/
def windDirection (deg : ℚ) : Option String :=
  let idx := windDirIdx deg
  if idx < 0 then none else compassDirs.get? idx.toNat

/-- The fields read out of a successful Open-Meteo response
(main.cpp lines 289-292). -/
structure WeatherFields where
  tempF : ℚ
  windMph : ℚ
  windDirDeg : ℚ
  weathercode : ℤ
deriving DecidableEq

/-- Function `fetchWeather` (main.cpp lines 267-304) as a state transformer: on a
successful fetch (`some w`: HTTP 200 and the JSON parsed) all five data fields
update together; on failure they are untouched.  `fetchedAt = nowString()`
(line 298) executes unconditionally, after the success branch. -/
def fetchWeatherStep (st : WeatherState) (res : Option WeatherFields)
    (nowStr : String) : WeatherState :=
  let st1 :=
    match res with
    | some w =>
        { st with tempF := w.tempF, windMph := w.windMph, windDirDeg := w.windDirDeg,
                  condition := wmoDescription w.weathercode, valid := true }
    | none => st
  { st1 with fetchedAt := nowStr }

/-- The needle-refresh body of `loop()` (main.cpp lines 542-547): write
`tideToDAC(deltaMSL)` only when `tideState.valid`, otherwise leave the DAC at
its previous value. -/
def needleRefresh (st : TideState) (needle : ℤ) : ℤ :=
  if st.valid then tideToDAC st.deltaMSL else needle

/-- The device state observable by the claims: the tide record and the last
value written to the DAC channel. -/
structure Device where
  tide : TideState
  needle : ℤ
deriving DecidableEq

/-- The inputs consumed by one tide fetch: level outcome, prediction outcome,
the `time(nullptr)` snapshot and the `nowString()` stamp. -/
structure TideFetchIn where
  level : Option ℚ
  preds : Option (List Prediction)
  now : ℤ
  nowStr : String

/-- The externally determined events of one `loop()` iteration: whether the
tide timer fired (and with what fetch outcome) and whether the needle timer
fired.  The weather branch never touches `tideState` or the DAC. -/
structure LoopIn where
  tideFetch : Option TideFetchIn
  needleTick : Bool

/-- One iteration of `loop()` (main.cpp lines 527-548) restricted to the tide
and needle branches: the tide fetch (when its timer fired) runs before the
needle refresh (when its timer fired), as in the source order. -/
def loopIter (d : Device) (inp : LoopIn) : Device :=
  let t :=
    match inp.tideFetch with
    | some f => fetchTideStep d.tide f.level f.preds f.now f.nowStr
    | none => d.tide
  let n := if inp.needleTick then needleRefresh t d.needle else d.needle
  { tide := t, needle := n }

/-- A run of `loop()` over a list of iteration inputs. -/
def loopRun (d : Device) : List LoopIn → Device
  | [] => d
  | i :: is => loopRun (loopIter d i) is

/-! ### Helper lemmas -/

/-- Truncation toward zero fixes integers. -/
theorem truncQ_intCast (n : ℤ) : truncQ (n : ℚ) = n := by
  unfold truncQ
  split
  · exact Int.floor_intCast n
  · exact Int.ceil_intCast n

/-- Truncation toward zero is monotone non-decreasing. -/
theorem truncQ_mono {a b : ℚ} (h : a ≤ b) : truncQ a ≤ truncQ b := by
  unfold truncQ
  rcases le_or_lt 0 a with ha | ha
  · rw [if_pos ha, if_pos (ha.trans h)]
    exact Int.floor_le_floor h
  · rcases le_or_lt 0 b with hb | hb
    · rw [if_neg (not_le.mpr ha), if_pos hb]
      refine le_trans (Int.ceil_le.mpr ?_) (Int.floor_nonneg.mpr hb)
      exact_mod_cast ha.le
    · rw [if_neg (not_le.mpr ha), if_neg (not_le.mpr hb)]
      exact Int.ceil_le_ceil h

/-- Arduino `constrain` is clamping to the interval, when the bounds are ordered. -/
theorem constrain_eq_max_min {α : Type} [LinearOrder α] (x lo hi : α) (h : lo ≤ hi) :
    constrain x lo hi = max lo (min x hi) := by
  unfold constrain
  split_ifs with h1 h2
  · rw [min_eq_left (h1.le.trans h), max_eq_left h1.le]
  · rw [min_eq_right h2.le, max_eq_right h]
  · rw [min_eq_left (not_lt.mp h2), max_eq_right (not_lt.mp h1)]

/-- Arduino `constrain` with ordered bounds is monotone in its argument. -/
theorem constrain_mono {α : Type} [LinearOrder α] {x y : α} (lo hi : α)
    (hlh : lo ≤ hi) (hxy : x ≤ y) : constrain x lo hi ≤ constrain y lo hi := by
  rw [constrain_eq_max_min x lo hi hlh, constrain_eq_max_min y lo hi hlh]
  exact max_le_max le_rfl (min_le_min hxy le_rfl)

/-- Expansion of `tideToDAC` with its lets unfolded. -/
theorem tideToDAC_eq (x : ℚ) :
    tideToDAC x = constrain (DAC_CENTER
      + truncQ (constrain x (-TIDE_SCALE_FT) TIDE_SCALE_FT / TIDE_SCALE_FT * 127)) 0 255 :=
  rfl

/-- A level-fetch failure never changes the `valid` flag. -/
theorem fetchTideStep_valid_of_level_none (st : TideState)
    (preds : Option (List Prediction)) (now : ℤ) (s : String) :
    (fetchTideStep st none preds now s).valid = st.valid := by
  cases preds with
  | none => rfl
  | some l =>
      simp only [fetchTideStep, nextEventUpdate]
      cases hf : l.find? (fun p => decide (now < p.pt)) with
      | none => simp [hf]
      | some p => simp [hf]

/-- The prediction branch never changes the `needle`-relevant group
{currentFt, deltaMSL, valid}. -/
theorem nextEventUpdate_frame (st : TideState) (preds : List Prediction) (now : ℤ) :
    (nextEventUpdate st preds now).currentFt = st.currentFt
    ∧ (nextEventUpdate st preds now).deltaMSL = st.deltaMSL
    ∧ (nextEventUpdate st preds now).valid = st.valid := by
  simp only [nextEventUpdate]
  cases hf : preds.find? (fun p => decide (now < p.pt)) with
  | none => simp [hf]
  | some p => simp [hf]

/-- Needle refresh does nothing while the state is invalid. -/
theorem needleRefresh_of_invalid (st : TideState) (n : ℤ) (h : st.valid = false) :
    needleRefresh st n = n := by
  simp [needleRefresh, h]

/-- The first-match scan of a list that starts with non-qualifying entries and
then holds a qualifying entry `p` returns `p`, whatever follows it. -/
theorem find_first_qualifying (now : ℤ) (p : Prediction) (hp : now < p.pt) :
    ∀ (pre post : List Prediction), (∀ q ∈ pre, q.pt ≤ now) →
      (pre ++ p :: post).find? (fun q => decide (now < q.pt)) = some p := by
  intro pre
  induction pre with
  | nil =>
      intro post _
      exact List.find?_cons_of_pos _ (by simpa using hp)
  | cons q pre ih =>
      intro post hpre
      rw [List.cons_append, List.find?_cons_of_neg]
      · exact ih post (fun r hr => hpre r (List.mem_cons_of_mem q hr))
      · simpa using not_lt.mpr (hpre q (List.mem_cons_self q pre))

/-! ### Claim theorems -/

/-- Claim C1 (code_bug evaluation): the endpoint behavior of `tideToDAC`.
The center and the positive boundary behave as documented
(`tideToDAC 0 = 128`, `tideToDAC (+rangeFt) = 255`, saturating above), but at
and below the negative boundary the code produces DAC code 1, not the 0 that
both the claim and the code's own comments (main.cpp lines 9-10 and 83)
state: `128 + (int)(-1.0 * 127.0) = 1`. -/
theorem tideToDAC_boundary_eval :
    tideToDAC 0 = 128
    ∧ tideToDAC TIDE_SCALE_FT = 255
    ∧ tideToDAC (-TIDE_SCALE_FT) = 1
    ∧ tideToDAC 9 = 255
    ∧ tideToDAC (-9) = 1 := by
  refine ⟨?_, ?_, ?_, ?_, ?_⟩ <;>
    norm_num [tideToDAC, constrain, truncQ, TIDE_SCALE_FT, DAC_CENTER] <;>
    rw [show (⌈(-127 : ℚ)⌉ : ℤ) = -127 by
      rw [show ((-127 : ℚ)) = ((-127 : ℤ) : ℚ) by norm_num, Int.ceil_intCast]] <;>
    norm_num

/-- Claim C2 (counterexample): the next-tide-event search is NOT invariant
under permutations of the prediction list and does not keep the earliest
qualifying timestamp.  With `now = 0`, the list holding the qualifying entries
`pt = 5` ("H") and `pt = 2` ("L") yields "High" in one order and "Low" in the
other, because the loop breaks at the first qualifying entry in list order. -/
theorem nextEventSearch_order_dependent :
    (fetchTideStep TideState.init none
        (some [⟨5, 0, 5, "H", 6⟩, ⟨2, 0, 2, "L", 1⟩]) 0 "t").nextEventType = "High"
    ∧ (fetchTideStep TideState.init none
        (some [⟨2, 0, 2, "L", 1⟩, ⟨5, 0, 5, "H", 6⟩]) 0 "t").nextEventType = "Low"
    ∧ ("High" : String) ≠ "Low" := by
  refine ⟨rfl, rfl, by decide⟩

/-- Claim C2 (amended): the next-tide-event search selects the FIRST entry in
input-list order whose timestamp is strictly later than the fetch-time
snapshot `now`, stopping there: if every entry before `p` has a timestamp at
or before `now` and `p` qualifies, the next-event fields are set from `p`,
whatever entries follow it. -/
theorem nextEventSearch_first_qualifying (st : TideState) (level : Option ℚ)
    (now : ℤ) (s : String) (pre post : List Prediction) (p : Prediction)
    (hpre : ∀ q ∈ pre, q.pt ≤ now) (hp : now < p.pt) :
    (fetchTideStep st level (some (pre ++ p :: post)) now s).nextEventType
        = (if p.type == "H" then "High" else "Low")
    ∧ (fetchTideStep st level (some (pre ++ p :: post)) now s).nextEventFt = p.v
    ∧ (fetchTideStep st level (some (pre ++ p :: post)) now s).nextEventTime
        = formatTime p.hour p.minute := by
  have hf := find_first_qualifying now p hp pre post hpre
  cases level <;> simp [fetchTideStep, nextEventUpdate, hf]

/-- Witness for the amended claim C2, at a list with one stale entry followed
by a qualifying one. -/
theorem nextEventSearch_first_qualifying_witness :
    (fetchTideStep TideState.init none
        (some [⟨-10, 23, 0, "H", 7⟩, ⟨2, 0, 2, "L", 1⟩]) 0 "t").nextEventFt = 1 :=
  (nextEventSearch_first_qualifying TideState.init none 0 "t"
    [⟨-10, 23, 0, "H", 7⟩] [] ⟨2, 0, 2, "L", 1⟩
    (by decide) (by decide)).2.1

/-- Claim C3: in one `fetchTide` cycle the two field groups update
independently and atomically.  When the level fetch fails, group A
{currentFt, deltaMSL, valid} keeps its prior values while a successful
prediction scan still updates group B; when the prediction fetch fails,
group B {nextEventType, nextEventFt, nextEventTime} keeps its prior values
while a successful level fetch updates group A as a whole. -/
theorem fetchTide_group_independence (st : TideState) (preds : List Prediction)
    (now : ℤ) (s : String) (v : ℚ) (p : Prediction) :
    ((fetchTideStep st none (some preds) now s).currentFt = st.currentFt
      ∧ (fetchTideStep st none (some preds) now s).deltaMSL = st.deltaMSL
      ∧ (fetchTideStep st none (some preds) now s).valid = st.valid)
    ∧ (preds.find? (fun q => decide (now < q.pt)) = some p →
        (fetchTideStep st none (some preds) now s).nextEventFt = p.v
        ∧ (fetchTideStep st none (some preds) now s).nextEventTime
            = formatTime p.hour p.minute)
    ∧ ((fetchTideStep st (some v) none now s).nextEventType = st.nextEventType
      ∧ (fetchTideStep st (some v) none now s).nextEventFt = st.nextEventFt
      ∧ (fetchTideStep st (some v) none now s).nextEventTime = st.nextEventTime
      ∧ (fetchTideStep st (some v) none now s).currentFt = v
      ∧ (fetchTideStep st (some v) none now s).deltaMSL = v - NOAA_MSL_FT
      ∧ (fetchTideStep st (some v) none now s).valid = true) := by
  refine ⟨?_, ?_, ?_⟩
  · simpa [fetchTideStep] using nextEventUpdate_frame st preds now
  · intro hf
    simp [fetchTideStep, nextEventUpdate, hf]
  · simp [fetchTideStep]

/-- Witness for claim C3 at a one-entry qualifying prediction list. -/
theorem fetchTide_group_independence_witness :
    (fetchTideStep TideState.init none (some [⟨2, 0, 2, "L", 1⟩]) 0 "n").nextEventFt = 1 :=
  ((fetchTide_group_independence TideState.init [⟨2, 0, 2, "L", 1⟩] 0 "n" 1
    ⟨2, 0, 2, "L", 1⟩).2.1 rfl).1

/-- Claim C4: `valid` is false at boot; a successful level fetch makes it true
and writes `currentFt = v` and `deltaMSL = v - NOAA_MSL_FT` together; and once
`valid` is true, no fetch outcome (including total failure) resets it. -/
theorem tideValid_policy (st : TideState) (level : Option ℚ)
    (preds : Option (List Prediction)) (now : ℤ) (s : String) (v : ℚ) :
    TideState.init.valid = false
    ∧ ((fetchTideStep st (some v) preds now s).valid = true
      ∧ (fetchTideStep st (some v) preds now s).currentFt = v
      ∧ (fetchTideStep st (some v) preds now s).deltaMSL = v - NOAA_MSL_FT)
    ∧ (st.valid = true → (fetchTideStep st level preds now s).valid = true) := by
  refine ⟨rfl, ?_, ?_⟩
  · cases preds with
    | none => simp [fetchTideStep]
    | some l =>
        have h := nextEventUpdate_frame
          { st with currentFt := v, deltaMSL := v - NOAA_MSL_FT, valid := true } l now
        simp only [fetchTideStep]
        exact ⟨h.2.2, h.1, h.2.1⟩
  · intro hv
    cases level with
    | none => rw [fetchTideStep_valid_of_level_none]; exact hv
    | some w =>
        cases preds with
        | none => simp [fetchTideStep]
        | some l =>
            have h := nextEventUpdate_frame
              { st with currentFt := w, deltaMSL := w - NOAA_MSL_FT, valid := true } l now
            simp only [fetchTideStep]
            exact h.2.2

/-- Witness for claim C4: the boot state is invalid, and a state already valid
stays valid through a fully failed fetch. -/
theorem tideValid_policy_witness :
    TideState.init.valid = false
    ∧ (fetchTideStep { TideState.init with valid := true } none none 0 "s").valid = true := by
  have h := tideValid_policy { TideState.init with valid := true } none none 0 "s" 1
  exact ⟨h.1, h.2.2 rfl⟩

/-- Claim C5 (counterexample): `fetchedAt` is NOT left unchanged on a failed
weather fetch — `weatherState.fetchedAt = nowString()` (main.cpp line 298)
executes unconditionally, so a failed fetch still restamps it. -/
theorem weatherFetchedAt_stamped_on_failure :
    (fetchWeatherStep WeatherState.init none "12:00:00").fetchedAt = "12:00:00"
    ∧ (fetchWeatherStep WeatherState.init none "12:00:00").fetchedAt
        ≠ WeatherState.init.fetchedAt := by
  refine ⟨rfl, by decide⟩

/-- Claim C5 (amended): `fetchedAt` is stamped with `nowString()` on EVERY
invocation of `fetchWeather`, success or failure alike; on failure all other
weather fields are unchanged. -/
theorem weatherFetchedAt_unconditional (st : WeatherState)
    (res : Option WeatherFields) (s : String) :
    (fetchWeatherStep st res s).fetchedAt = s
    ∧ ((fetchWeatherStep st none s).tempF = st.tempF
      ∧ (fetchWeatherStep st none s).windMph = st.windMph
      ∧ (fetchWeatherStep st none s).windDirDeg = st.windDirDeg
      ∧ (fetchWeatherStep st none s).condition = st.condition
      ∧ (fetchWeatherStep st none s).valid = st.valid) := by
  cases res <;> simp [fetchWeatherStep]

/-- Claim C6 (counterexample): `windDirection 44` is "NE", not the "N" the
claim states: `(int)((44 + 22.5) / 45) = 1`, which is sector "NE". -/
theorem windDirection_44_counterexample :
    windDirection 44 = some "NE" ∧ windDirection 44 ≠ some "N" := by
  have h : windDirection 44 = some "NE" := by
    norm_num [windDirection, windDirIdx, truncQ, compassDirs]
    decide
  exact ⟨h, by rw [h]; decide⟩

/-- Claim C6 (amended): the compass-sector mapping has sector 0 ("N") centered
on 0 degrees, and maps 0 to "N", 44 to "NE", 46 to "NE" and 350 to "N"
(wraparound through the mod 8). -/
theorem windDirection_sector_eval :
    windDirection 0 = some "N" ∧ windDirection 44 = some "NE"
    ∧ windDirection 46 = some "NE" ∧ windDirection 350 = some "N" := by
  refine ⟨?_, ?_, ?_, ?_⟩ <;>
    (norm_num [windDirection, windDirIdx, truncQ, compassDirs] <;> decide)

/-- Claim C7: `tideToDAC` is monotone non-decreasing over all inputs,
across the clamping boundaries and through the integer truncation. -/
theorem tideToDAC_mono (x y : ℚ) (h : x ≤ y) : tideToDAC x ≤ tideToDAC y := by
  rw [tideToDAC_eq, tideToDAC_eq]
  have h8 : (-TIDE_SCALE_FT : ℚ) ≤ TIDE_SCALE_FT := by norm_num [TIDE_SCALE_FT]
  have h8pos : (0 : ℚ) < TIDE_SCALE_FT := by norm_num [TIDE_SCALE_FT]
  have hc : constrain x (-TIDE_SCALE_FT) TIDE_SCALE_FT
      ≤ constrain y (-TIDE_SCALE_FT) TIDE_SCALE_FT := constrain_mono _ _ h8 h
  have hn : constrain x (-TIDE_SCALE_FT) TIDE_SCALE_FT / TIDE_SCALE_FT
      ≤ constrain y (-TIDE_SCALE_FT) TIDE_SCALE_FT / TIDE_SCALE_FT :=
    (div_le_div_iff_of_pos_right h8pos).mpr hc
  have hm := mul_le_mul_of_nonneg_right hn (by norm_num : (0 : ℚ) ≤ 127)
  have ht := truncQ_mono hm
  exact constrain_mono 0 255 (by norm_num) (add_le_add_left ht DAC_CENTER)

/-- Witness for claim C7 at 1 ≤ 2. -/
theorem tideToDAC_mono_witness : tideToDAC 1 ≤ tideToDAC 2 :=
  tideToDAC_mono 1 2 (by norm_num)

/-- Claim C8: when every prediction's timestamp is at or before the single
fetch-time snapshot `now` (in particular when the list is empty), the tide
refresh leaves all three next-event fields unchanged, whatever the level
fetch did. -/
theorem nextEvent_retained_when_none_qualify (st : TideState) (level : Option ℚ)
    (preds : List Prediction) (now : ℤ) (s : String)
    (h : ∀ p ∈ preds, p.pt ≤ now) :
    (fetchTideStep st level (some preds) now s).nextEventType = st.nextEventType
    ∧ (fetchTideStep st level (some preds) now s).nextEventFt = st.nextEventFt
    ∧ (fetchTideStep st level (some preds) now s).nextEventTime = st.nextEventTime := by
  have hf : preds.find? (fun p => decide (now < p.pt)) = none :=
    List.find?_eq_none.mpr (fun p hp => by simpa using not_lt.mpr (h p hp))
  cases level <;> simp [fetchTideStep, nextEventUpdate, hf]

/-- Witness for claim C8 at the empty prediction list. -/
theorem nextEvent_retained_witness :
    (fetchTideStep TideState.init (some 1) (some []) 0 "s").nextEventType
      = TideState.init.nextEventType :=
  (nextEvent_retained_when_none_qualify TideState.init (some 1) [] 0 "s"
    (by intro p hp; cases hp)).1

/-- Claim C9: for every `deg ≥ -22.5` the sector index of `windDirection`
lies in [0, 7], so the 8-entry table access is in bounds; and the bound is
necessary: `deg = -67.5` yields index -1, an out-of-bounds access. -/
theorem windDirIdx_bounds (deg : ℚ) (h : -(45/2) ≤ deg) :
    (0 ≤ windDirIdx deg ∧ windDirIdx deg < 8) ∧ windDirIdx (-(135/2)) < 0 := by
  constructor
  · have hnum : (0 : ℚ) ≤ deg + 45/2 := by linarith
    have hq : (0 : ℚ) ≤ (deg + 45/2) / 45 := div_nonneg hnum (by norm_num)
    have ha : 0 ≤ truncQ ((deg + 45/2) / 45) := by
      unfold truncQ
      rw [if_pos hq]
      exact Int.floor_nonneg.mpr hq
    unfold windDirIdx
    exact ⟨Int.tmod_nonneg _ ha, Int.tmod_lt_of_pos _ (by norm_num)⟩
  · norm_num [windDirIdx, truncQ]
    decide

/-- Witness for claim C9 at `deg = 0`. -/
theorem windDirIdx_bounds_witness :
    (0 ≤ windDirIdx 0 ∧ windDirIdx 0 < 8) ∧ windDirIdx (-(135/2)) < 0 :=
  windDirIdx_bounds 0 (by norm_num)

/-- Claim C10: over any run of `loop()` starting with `valid = false` in which
every fired tide fetch fails its level request, the DAC value is never
rewritten — it stays at whatever the startup sequence wrote — and `valid`
stays false; and whenever `valid` is true, a needle tick writes exactly
`tideToDAC deltaMSL`. -/
theorem needle_silent_until_valid (d : Device) (ins : List LoopIn)
    (h0 : d.tide.valid = false)
    (hfail : ∀ i ∈ ins, ∀ f, i.tideFetch = some f → f.level = none) :
    ((loopRun d ins).needle = d.needle ∧ (loopRun d ins).tide.valid = false)
    ∧ (∀ st n, st.valid = true → needleRefresh st n = tideToDAC st.deltaMSL) := by
  constructor
  · induction ins generalizing d with
    | nil => exact ⟨rfl, h0⟩
    | cons i is ih =>
        have hvalid : (loopIter d i).tide.valid = false := by
          cases hi : i.tideFetch with
          | none => simpa [loopIter, hi] using h0
          | some f =>
              have hl : f.level = none := hfail i (List.mem_cons_self i is) f hi
              simp only [loopIter, hi]
              rw [hl, fetchTideStep_valid_of_level_none]
              exact h0
        have hneedle : (loopIter d i).needle = d.needle := by
          have hproj : (loopIter d i).needle
              = if i.needleTick then needleRefresh (loopIter d i).tide d.needle
                else d.needle := rfl
          rw [hproj]
          cases i.needleTick with
          | false => rfl
          | true => simpa using needleRefresh_of_invalid (loopIter d i).tide d.needle hvalid
        have hrun := ih (loopIter d i) hvalid
          (fun j hj f hf => hfail j (List.mem_cons_of_mem i hj) f hf)
        refine ⟨?_, hrun.2⟩
        calc (loopRun d (i :: is)).needle = (loopRun (loopIter d i) is).needle := rfl
          _ = (loopIter d i).needle := hrun.1
          _ = d.needle := hneedle
  · intro st n hv
    simp [needleRefresh, hv]

/-- Witness for claim C10: one iteration with a failed fetch and a needle tick
leaves the startup needle value 128 in place. -/
theorem needle_silent_until_valid_witness :
    ((loopRun ⟨TideState.init, 128⟩
        [⟨some ⟨none, some [], 0, "s"⟩, true⟩]).needle = (128 : ℤ)
      ∧ (loopRun ⟨TideState.init, 128⟩
        [⟨some ⟨none, some [], 0, "s"⟩, true⟩]).tide.valid = false)
    ∧ (∀ st n, st.valid = true → needleRefresh st n = tideToDAC st.deltaMSL) :=
  needle_silent_until_valid ⟨TideState.init, 128⟩
    [⟨some ⟨none, some [], 0, "s"⟩, true⟩] rfl
    (by
      intro i hi f hf
      rcases List.mem_singleton.mp hi with rfl
      cases Option.some.inj hf
      rfl)
